import Mathlib

/-!
Shallow embedding of the Prayah bookstore web application.

The application is a Flask storefront backed by one sqlite file.  The
definitions below translate the routes and helpers that the verified
properties are about:

* models/database.py : the notifications table and its operations
  (add_notification, mark_notification_read) and the books table schema;
* app_enhanced.py : checkout, view_cart (the session-cart materialization);
* admin/routes.py : add_book (validated), edit_book (low-stock alert),
  mark_notification_read route;
* app.py : the legacy admin_add_book route (no price validation).

Database rows become Lean structures; the sqlite REAL price column is
modelled by the rationals for the catalog operations (every value the
storefront arithmetic touches is finite), while the admin insert routes keep
the full Python float domain (PyFloat below) so that non-finite parses, and
the INSERT failure a nan then causes, can be expressed.  Integer columns and Python ints are Int.  A dict held in the
session cart becomes an insertion-ordered association list.  Fallible
request handlers return Except or a result tag.  Randomness (uuid4) is an
explicit argument.
-/

/-- A row of the books table (models/database.py, init_db).  The image and
timestamp columns are omitted: no verified operation reads them. -/
structure Book where
  id : Nat
  title : String
  author : String
  description : String
  price : ℚ
  stock : Int
  genre : String
  stock_threshold : Int
  deriving Repr, DecidableEq

/-- A row of the orders table.  Only the columns the verified operations
write and read are kept. -/
structure Order where
  order_id : String
  customer_name : String
  total_amount : ℚ
  deriving Repr, DecidableEq

/-- A row of the order_items table. -/
structure OrderItem where
  order_id : String
  book_id : Nat
  quantity : Int
  price : ℚ
  deriving Repr, DecidableEq

/-- A row of the notifications table. -/
structure Notif where
  id : Nat
  ntype : String
  title : String
  message : String
  is_read : Bool
  deriving Repr, DecidableEq

/-- The database state touched by the verified operations. -/
structure Db where
  books : List Book
  orders : List Order
  order_items : List OrderItem
  notifications : List Notif
  deriving Repr, DecidableEq

/-- SELECT * FROM books WHERE id = ? followed by fetchone(). -/
def findBook (books : List Book) (bid : Nat) : Option Book :=
  books.find? (fun b => b.id == bid)

/-- Database.add_notification: INSERT INTO notifications (type, title,
message) VALUES (?, ?, ?).  The autoincrement id is the row count plus one
(rows are never deleted). -/
def addNotification (db : Db) (t ti msg : String) : Db :=
  { db with notifications :=
      db.notifications ++ [⟨db.notifications.length + 1, t, ti, msg, false⟩] }

/-- Database.mark_notification_read: UPDATE notifications SET is_read = TRUE
WHERE id = ?. -/
def markNotificationRead (ns : List Notif) (nid : Nat) : List Notif :=
  ns.map (fun n => if n.id == nid then { n with is_read := true } else n)

/-- The admin route POST /admin/notifications/(id)/read: it runs
mark_notification_read and returns jsonify success True unconditionally. -/
def markNotificationReadRoute (ns : List Notif) (nid : Nat) :
    List Notif × Bool :=
  (markNotificationRead ns nid, true)

/-- How the checkout POST handler in app_enhanced.py (and app.py) can fail
while scanning the cart.  When a line references a book id with no row, the
else branch formats the flash message from the fetched row, which is None,
so the handler raises an uncaught TypeError instead of flashing. -/
inductive CheckoutErr where
  | insufficientStock (title : String) (available : Int)
  | noneTypeError
  deriving Repr, DecidableEq

/-- One entry of the cart_items list the scan loop builds: book id, the
requested quantity, and the unit price read from the books row. -/
structure CartLineOk where
  book_id : Nat
  quantity : Int
  price : ℚ
  deriving Repr, DecidableEq

/-- The first loop of the checkout handler: for each session-cart line,
re-fetch the book; if it exists and stock covers the requested quantity,
record the line with the price read now and add to the running total;
otherwise stop the whole request (insufficient-stock flash, or the
TypeError when the row is absent). -/
def scanCart (books : List Book) :
    List (Nat × Int) → Except CheckoutErr (ℚ × List CartLineOk)
  | [] => Except.ok (0, [])
  | (bid, q) :: rest =>
    match findBook books bid with
    | some b =>
      if b.stock ≥ q then
        match scanCart books rest with
        | Except.ok (t, its) =>
            Except.ok (b.price * (q : ℚ) + t, ⟨bid, q, b.price⟩ :: its)
        | Except.error e => Except.error e
      else Except.error (.insufficientStock b.title b.stock)
    | none => Except.error .noneTypeError

/-- UPDATE books SET stock = stock - ? WHERE id = ?.  The update is
unconditional: there is no AND stock >= ? guard and no affected-row check,
so the column can go negative. -/
def decStock (books : List Book) (bid : Nat) (q : Int) : List Book :=
  books.map (fun b => if b.id == bid then { b with stock := b.stock - q } else b)

/-- INSERT INTO order_items ... VALUES (?, ?, ?, ?). -/
def toOrderItem (oid : String) (it : CartLineOk) : OrderItem :=
  ⟨oid, it.book_id, it.quantity, it.price⟩

/-- The second loop of the checkout handler: per recorded line, insert the
order_items row, then run the stock update. -/
def commitItems (db : Db) (oid : String) : List CartLineOk → Db
  | [] => db
  | it :: rest =>
      commitItems
        { db with
          order_items := db.order_items ++ [toOrderItem oid it],
          books := decStock db.books it.book_id it.quantity }
        oid rest

instance {ε α : Type} [DecidableEq ε] [DecidableEq α] :
    DecidableEq (Except ε α) := fun a b =>
  match a, b with
  | Except.ok x, Except.ok y =>
      if h : x = y then isTrue (by simp [h]) else isFalse (by simp [h])
  | Except.error x, Except.error y =>
      if h : x = y then isTrue (by simp [h]) else isFalse (by simp [h])
  | Except.ok _, Except.error _ => isFalse (by simp)
  | Except.error _, Except.ok _ => isFalse (by simp)

/-- Outcome of one checkout POST: the database after the request, the
session cart after the request, and either the confirmed order id or the
error that ended the request. -/
structure CheckoutResult where
  db : Db
  cart : List (Nat × Int)
  outcome : Except CheckoutErr String
  deriving Repr, DecidableEq

/-- The checkout POST handler of app_enhanced.py.  The order id produced by
str(uuid.uuid4())[:8].upper() is an explicit argument (its generator is
modelled separately as genOrderId).  On a scan failure the handler returns
before any INSERT or UPDATE, so the database and the session cart are
handed back untouched; on success it inserts the orders row, runs the
item/stock loop, commits, appends the new_order notification, and clears
the session cart. -/
def checkout (db : Db) (cart : List (Nat × Int)) (oid customer : String) :
    CheckoutResult :=
  match scanCart db.books cart with
  | Except.error e => ⟨db, cart, Except.error e⟩
  | Except.ok (total, items) =>
    let db1 : Db := { db with orders := db.orders ++ [⟨oid, customer, total⟩] }
    let db2 := commitItems db1 oid items
    let db3 := addNotification db2 "new_order" "New Order Received"
      ("Order " ++ oid ++ " placed by " ++ customer)
    ⟨db3, [], Except.ok oid⟩

/-- A cart line the scan loop rejects: its book is absent, or the requested
quantity exceeds the current stock. -/
def isBadLine (books : List Book) (l : Nat × Int) : Bool :=
  match findBook books l.1 with
  | some b => decide (l.2 > b.stock)
  | none => true

/-- The admin edit-book POST handler of admin/routes.py with validated
fields.  It re-reads the row; a missing id redirects with no change; the
low-stock alert fires exactly when the submitted stock is at or below the
submitted threshold while the stored stock was strictly above it; then the
row is updated. -/
def edit_book (db : Db) (bid : Nat) (title author description : String)
    (price : ℚ) (stock : Int) (genre : String) (stock_threshold : Int) : Db :=
  match findBook db.books bid with
  | none => db
  | some b =>
    let db1 : Db :=
      if stock ≤ stock_threshold ∧ b.stock > stock_threshold then
        addNotification db "low_stock" "Low Stock Alert"
          (title ++ " is now low on stock")
      else db
    { db1 with books := db1.books.map (fun x =>
        if x.id == bid then
          { x with
            title := title,
            author := author,
            description := description,
            price := price,
            stock := stock,
            genre := genre,
            stock_threshold := stock_threshold }
        else x) }

/-- Number of low_stock rows in the notifications table. -/
def lowStockCount (db : Db) : Nat :=
  (db.notifications.filter (fun n => n.ntype == "low_stock")).length

/-- A one-book catalog used by the concrete witnesses: book 1 is in stock
with a single copy. -/
def dbOneBook : Db := ⟨[⟨1, "B", "A", "d", 10, 1, "g", 5⟩], [], [], []⟩

/-- A catalog whose single book sits one sale above its low-stock
threshold: stock 6, threshold 5. -/
def dbCross : Db := ⟨[⟨1, "B", "A", "d", 10, 6, "g", 5⟩], [], [], []⟩

/-- Program counter of one checkout request in the stock race: about to run
the stock check, past the check, failed the check, or done with its stock
update. -/
inductive TPC where
  | start
  | passed
  | failed
  | committed
  deriving Repr, DecidableEq

/-- One in-flight checkout request racing on a single book. -/
structure RaceThread where
  pc : TPC
  qty : Int
  deriving Repr, DecidableEq

/-- The shared stock column plus two in-flight requests. -/
structure RaceState where
  stock : Int
  t1 : RaceThread
  t2 : RaceThread
  deriving Repr, DecidableEq

/-- One step of one request: from start it evaluates the stock check of the
scan loop; from passed it executes UPDATE books SET stock = stock - ?,
which is an atomic read-modify-write on the column but carries no
stock >= ? condition. -/
def stepThread (stock : Int) (t : RaceThread) : Int × RaceThread :=
  match t.pc with
  | TPC.start =>
      if stock ≥ t.qty then (stock, { t with pc := TPC.passed })
      else (stock, { t with pc := TPC.failed })
  | TPC.passed => (stock - t.qty, { t with pc := TPC.committed })
  | _ => (stock, t)

/-- Scheduler step: true advances the first request, false the second. -/
def stepRace (r : RaceState) (first : Bool) : RaceState :=
  if first then
    let s := stepThread r.stock r.t1
    ⟨s.1, s.2, r.t2⟩
  else
    let s := stepThread r.stock r.t2
    ⟨s.1, r.t1, s.2⟩

/-- Run the two requests under an explicit interleaving. -/
def runRace (r : RaceState) : List Bool → RaceState
  | [] => r
  | b :: rest => runRace (stepRace r b) rest

/-- The conditional update the concurrency contract of the specification
requires, stated in its words for comparison: UPDATE books SET
stock = stock - ? WHERE id = ? AND stock >= ?, with the affected-row count
checked, refusing the decrement when stock is short. -/
def decrementStockContract (stock qty : Int) : Option Int :=
  if stock ≥ qty then some (stock - qty) else none

/-- The unconditional decrement the source actually issues. -/
def decrementStockSrc (stock qty : Int) : Int := stock - qty

/-- The sixteen characters that str(uuid.uuid4())[:8].upper() can produce
per position: the first eight characters of the uuid string are lowercase
hex digits, then upper() maps them here. -/
def hexDigits : List Char :=
  ['0', '1', '2', '3', '4', '5', '6', '7', '8', '9', 'A', 'B', 'C', 'D',
   'E', 'F']

/-- Nibble to uppercase hex character. -/
def hexUpperChar (i : Fin 16) : Char := hexDigits.getD i.val '0'

/-- The order-id generator str(uuid.uuid4())[:8].upper() of the checkout
handler, as a function of the eight random nibbles the slice keeps. -/
def genOrderId (u : Fin 8 → Fin 16) : List Char :=
  (List.ofFn u).map hexUpperChar

/-- Every character any generated order id can contain. -/
def orderIdAlphabet : Finset Char := Finset.image hexUpperChar Finset.univ

/-- The value domain of the Python float builtin: the non-finite sentinels
plus finite values, kept exact since rounding never matters to the
properties verified here. -/
inductive PyFloat where
  | nan
  | inf
  | neginf
  | finite (q : ℚ)
  deriving Repr, DecidableEq

/-- Drop the surrounding whitespace of a character list: the str.strip
method, and the whitespace tolerance of the float and int builtins. -/
def stripChars (l : List Char) : List Char :=
  ((l.dropWhile Char.isWhitespace).reverse.dropWhile Char.isWhitespace).reverse

/-- ASCII lowercasing of one character: the str.lower method on the inputs
these routes meet. -/
def lowerChar (c : Char) : Char :=
  if 'A' ≤ c ∧ c ≤ 'Z' then Char.ofNat (c.toNat + 32) else c

/-- The str.strip method. -/
def pyStrip (s : String) : String := String.mk (stripChars s.data)

/-- The str.lower method. -/
def pyLower (s : String) : String := String.mk (s.data.map lowerChar)

/-- Digit string to number; None when empty or when any character is not a
digit. -/
def digitsToNat (l : List Char) : Option Nat :=
  if l.isEmpty then none
  else if l.all Char.isDigit then
    some (l.foldl (fun n c => 10 * n + (c.toNat - 48)) 0)
  else none

/-- Split a character list at every occurrence of one separator. -/
def splitOnChar (c : Char) : List Char → List (List Char)
  | [] => [[]]
  | x :: xs =>
    let r := splitOnChar c xs
    if x = c then [] :: r
    else
      match r with
      | h :: t => (x :: h) :: t
      | [] => [[x]]

/-- Unsigned decimal literal, with an optional single point. -/
def parseUnsigned (l : List Char) : Option ℚ :=
  match splitOnChar '.' l with
  | [w] => (digitsToNat w).map (fun n => (n : ℚ))
  | [w, f] =>
    match digitsToNat w, digitsToNat f with
    | some wn, some fn =>
        some ((wn : ℚ) + (fn : ℚ) / ((10 : ℚ) ^ f.length))
    | _, _ => none
  | _ => none

/-- The Python float builtin on strings, on the shapes these routes meet:
surrounding whitespace and an optional sign, the case-insensitive words nan
inf infinity, or a decimal literal; anything else raises ValueError, which
is None here. -/
def pyFloatOfString (s : String) : Option PyFloat :=
  let t := pyLower (String.mk (stripChars s.data))
  if t = "nan" ∨ t = "+nan" ∨ t = "-nan" then some PyFloat.nan
  else if t = "inf" ∨ t = "+inf" ∨ t = "infinity" ∨ t = "+infinity" then
    some PyFloat.inf
  else if t = "-inf" ∨ t = "-infinity" then some PyFloat.neginf
  else
    match t.data with
    | '-' :: rest => (parseUnsigned rest).map (fun q => PyFloat.finite (-q))
    | '+' :: rest => (parseUnsigned rest).map PyFloat.finite
    | l2 => (parseUnsigned l2).map PyFloat.finite

/-- The Python int builtin on strings. -/
def pyIntOfString (s : String) : Option Int :=
  match stripChars s.data with
  | '-' :: rest => (digitsToNat rest).map (fun n => -(n : Int))
  | '+' :: rest => (digitsToNat rest).map (fun n => (n : Int))
  | l => (digitsToNat l).map (fun n => (n : Int))

/-- The comparison price < 0 on a Python float: False whenever the value is
nan. -/
def pyLtZero : PyFloat → Bool
  | PyFloat.finite q => decide (q < 0)
  | PyFloat.neginf => true
  | _ => false

/-- The sentinel words the enhanced add-book route rejects before calling
float, exactly as listed in admin/routes.py. -/
def sentinels : List String := ["nan", "inf", "-inf", "infinity", "-infinity"]

/-- The columns the enhanced add-book INSERT writes. -/
structure BookRow where
  title : String
  author : String
  description : String
  price : PyFloat
  stock : Int
  genre : String
  stock_threshold : Int
  deriving Repr, DecidableEq

/-- The columns the legacy app.py add-book INSERT writes; that schema has
no stock_threshold column. -/
structure BookRowL where
  title : String
  author : String
  description : String
  price : PyFloat
  stock : Int
  genre : String
  deriving Repr, DecidableEq

/-- How a book-creation POST ends: an inline validation error with its
flash message, an uncaught ValueError from an unguarded float or int call,
an uncaught IntegrityError from the INSERT itself (sqlite binds a nan float
as NULL, and the price column is REAL NOT NULL, so the NOT NULL constraint
fires), or a committed insert. -/
inductive AddBookOutcome where
  | validationError (msg : String)
  | parseCrash
  | integrityError
  | added
  deriving Repr, DecidableEq

/-- The enhanced admin add-book POST handler (admin/routes.py add_book): it
strips the price field and rejects the sentinel words before calling float,
then validates price, stock and stock_threshold in order, and only then
runs the INSERT; a nan price that slipped the sentinel list (the list is
only five words) would still fire the NOT NULL constraint of the REAL
price column there, committing nothing. -/
def add_book (table : List BookRow) (title author description : String)
    (price_str stock_str genre threshold_str : String) :
    AddBookOutcome × List BookRow :=
  let p := pyStrip price_str
  if pyLower p ∈ sentinels then
    (AddBookOutcome.validationError "Invalid price value provided.", table)
  else
    match pyFloatOfString p with
    | none =>
        (AddBookOutcome.validationError "Price must be a valid number.",
          table)
    | some price =>
      if pyLtZero price then
        (AddBookOutcome.validationError "Price must be a positive number.",
          table)
      else
        match pyIntOfString stock_str with
        | none =>
            (AddBookOutcome.validationError
              "Stock must be a valid integer.", table)
        | some stock =>
          if stock < 0 then
            (AddBookOutcome.validationError
              "Stock must be a non-negative integer.", table)
          else
            match pyIntOfString threshold_str with
            | none =>
                (AddBookOutcome.validationError
                  "Stock threshold must be a valid integer.", table)
            | some th =>
              if th < 0 then
                (AddBookOutcome.validationError
                  "Stock threshold must be a non-negative integer.", table)
              else if price = PyFloat.nan then
                (AddBookOutcome.integrityError, table)
              else
                (AddBookOutcome.added,
                  table ++
                    [⟨title, author, description, price, stock, genre, th⟩])

/-- The legacy admin add-book POST handler (app.py admin_add_book): the
price and stock fields go straight through float and int with no sentinel
check and no try; the INSERT then either commits the row or, when the
price parsed to nan, raises the IntegrityError of the REAL NOT NULL price
column (sqlite stores a bound nan as NULL), committing nothing. -/
def admin_add_book (table : List BookRowL)
    (title author description : String)
    (price_str stock_str genre : String) : AddBookOutcome × List BookRowL :=
  match pyFloatOfString price_str with
  | none => (AddBookOutcome.parseCrash, table)
  | some price =>
    match pyIntOfString stock_str with
    | none => (AddBookOutcome.parseCrash, table)
    | some stock =>
      if price = PyFloat.nan then (AddBookOutcome.integrityError, table)
      else
        (AddBookOutcome.added,
          table ++ [⟨title, author, description, price, stock, genre⟩])

/-- The one way the view_cart handler of app_enhanced.py dies: deleting a
dict key inside iteration over the same dict raises RuntimeError at the
next iterator step. -/
inductive ViewErr where
  | dictChangedSize
  deriving Repr, DecidableEq

/-- Result of a completed cart materialization: displayed items as book id,
displayed quantity and line total, the grand total, the warning flashes,
and the session cart after the request. -/
structure CartView where
  items : List (Nat × Int × ℚ)
  total : ℚ
  warnings : List String
  cart : List (Nat × Int)
  deriving Repr, DecidableEq

/-- The view_cart handler of app_enhanced.py.  It iterates the session-cart
dict: a line whose book covers the request is shown as is; a line whose
book exists with positive but short stock is clamped in place with a
warning, a same-size dict write; a line whose book exists with zero stock
is deleted from the dict inside the iteration, so the next step of the dict
iterator raises RuntimeError and the request dies; a line whose book row is
gone is silently skipped and stays in the cart. -/
def viewCart (books : List Book) :
    List (Nat × Int) → Except ViewErr CartView
  | [] => Except.ok ⟨[], 0, [], []⟩
  | (bid, q) :: rest =>
    match findBook books bid with
    | none =>
      (viewCart books rest).map (fun v =>
        ⟨v.items, v.total, v.warnings, (bid, q) :: v.cart⟩)
    | some b =>
      if b.stock ≥ q then
        (viewCart books rest).map (fun v =>
          ⟨(bid, q, b.price * (q : ℚ)) :: v.items,
            b.price * (q : ℚ) + v.total, v.warnings, (bid, q) :: v.cart⟩)
      else if b.stock > 0 then
        (viewCart books rest).map (fun v =>
          ⟨(bid, b.stock, b.price * (b.stock : ℚ)) :: v.items,
            b.price * (b.stock : ℚ) + v.total,
            (b.title ++ " adjusted to available stock") :: v.warnings,
            (bid, b.stock) :: v.cart⟩)
      else Except.error ViewErr.dictChangedSize

/-- Rows that are already in the state mark-read would write are left
exactly as they are by the row-update map. -/
lemma markRead_eq_self (ns : List Notif) (nid : Nat)
    (h : ∀ n ∈ ns, n.id = nid → n.is_read = true) :
    markNotificationRead ns nid = ns := by
  unfold markNotificationRead
  have hcong : ∀ n ∈ ns,
      (if n.id == nid then { n with is_read := true } else n) = id n := by
    intro n hn
    by_cases hid : n.id = nid
    · have har := h n hn hid
      cases n
      simp_all
    · have hb : (n.id == nid) = false := beq_eq_false_iff_ne.mpr hid
      simp [hb]
  rw [List.map_congr_left hcong, List.map_id]

/-- C7: marking an already-read notification read again succeeds, reports
success, and leaves every notification row unchanged. -/
theorem mark_read_idempotent (ns : List Notif) (nid : Nat)
    (h : ∀ n ∈ ns, n.id = nid → n.is_read = true) :
    markNotificationReadRoute ns nid = (ns, true) := by
  unfold markNotificationReadRoute
  rw [markRead_eq_self ns nid h]

/-- C7 witness: at a concrete store holding one already-read notification,
the mark-read route is a no-op that reports success. -/
theorem mark_read_idempotent_witness :
    markNotificationReadRoute [⟨1, "new_order", "t", "m", true⟩] 1 =
      ([⟨1, "new_order", "t", "m", true⟩], true) :=
  mark_read_idempotent [⟨1, "new_order", "t", "m", true⟩] 1 (by decide)

/-- C9: invoking mark-read with an id absent from the notifications table
succeeds silently: it reports success and changes no row. -/
theorem mark_read_missing_id_noop (ns : List Notif) (nid : Nat)
    (h : ∀ n ∈ ns, n.id ≠ nid) :
    markNotificationReadRoute ns nid = (ns, true) := by
  unfold markNotificationReadRoute
  rw [markRead_eq_self ns nid (fun n hn hid => absurd hid (h n hn))]

/-- C9 witness: marking id 99, absent from a concrete one-row store, leaves
the store unchanged and reports success. -/
theorem mark_read_missing_id_noop_witness :
    markNotificationReadRoute [⟨1, "new_order", "t", "m", false⟩] 99 =
      ([⟨1, "new_order", "t", "m", false⟩], true) :=
  mark_read_missing_id_noop [⟨1, "new_order", "t", "m", false⟩] 99 (by decide)

/-- If the scan loop runs to completion, no cart line was rejectable. -/
lemma scanCart_ok_no_bad (books : List Book) (cart : List (Nat × Int))
    (p : ℚ × List CartLineOk) (h : scanCart books cart = Except.ok p) :
    ∀ l ∈ cart, isBadLine books l = false := by
  induction cart generalizing p with
  | nil => intro l hl; cases hl
  | cons a rest ih =>
    obtain ⟨bid, q⟩ := a
    intro l hl
    unfold scanCart at h
    cases hf : findBook books bid with
    | none =>
      simp only [hf] at h
      exact absurd h (by simp)
    | some b =>
      simp only [hf] at h
      by_cases hs : b.stock ≥ q
      · rw [if_pos hs] at h
        cases hr : scanCart books rest with
        | error e =>
          simp only [hr] at h
          exact absurd h (by simp)
        | ok pr =>
          rcases List.mem_cons.mp hl with h1 | h2
          · subst h1
            unfold isBadLine
            simp only [hf, decide_eq_false_iff_not, not_lt]
            exact hs
          · exact ih pr hr l h2
      · rw [if_neg hs] at h
        exact absurd h (by simp)

/-- If some cart line is rejectable, the scan loop ends in an error. -/
lemma scanCart_error_of_bad (books : List Book) (cart : List (Nat × Int))
    (h : ∃ l ∈ cart, isBadLine books l = true) :
    ∃ e, scanCart books cart = Except.error e := by
  cases hsc : scanCart books cart with
  | ok p =>
    obtain ⟨l, hl, hbad⟩ := h
    rw [scanCart_ok_no_bad books cart p hsc l hl] at hbad
    cases hbad
  | error e => exact ⟨e, rfl⟩

/-- When every cart line references an existing book, the only scan error is
the insufficient-stock one. -/
lemma scanCart_error_insufficient (books : List Book)
    (cart : List (Nat × Int)) (e : CheckoutErr)
    (hall : ∀ l ∈ cart, (findBook books l.1).isSome = true)
    (h : scanCart books cart = Except.error e) :
    ∃ t a, e = CheckoutErr.insufficientStock t a := by
  induction cart generalizing e with
  | nil => exact absurd h (by simp [scanCart])
  | cons a rest ih =>
    obtain ⟨bid, q⟩ := a
    unfold scanCart at h
    cases hf : findBook books bid with
    | none =>
      have := hall (bid, q) (List.mem_cons_self _ _)
      rw [hf] at this
      cases this
    | some b =>
      simp only [hf] at h
      by_cases hs : b.stock ≥ q
      · rw [if_pos hs] at h
        cases hr : scanCart books rest with
        | ok pr =>
          simp only [hr] at h
          exact absurd h (by simp)
        | error e2 =>
          simp only [hr] at h
          injection h with h2
          subst h2
          exact ih e2 (fun l hl => hall l (List.mem_cons_of_mem _ hl)) hr
      · rw [if_neg hs] at h
        injection h with h2
        exact ⟨b.title, b.stock, h2.symm⟩

/-- The running total built by the scan loop equals the sum over the
recorded lines of quantity times captured unit price. -/
lemma scanCart_ok_total (books : List Book) (cart : List (Nat × Int))
    (t : ℚ) (its : List CartLineOk)
    (h : scanCart books cart = Except.ok (t, its)) :
    t = (its.map (fun it => (it.quantity : ℚ) * it.price)).sum := by
  induction cart generalizing t its with
  | nil =>
    unfold scanCart at h
    injection h with h2
    injection h2 with h3 h4
    subst h3
    subst h4
    simp
  | cons a rest ih =>
    obtain ⟨bid, q⟩ := a
    unfold scanCart at h
    cases hf : findBook books bid with
    | none =>
      simp only [hf] at h
      exact absurd h (by simp)
    | some b =>
      simp only [hf] at h
      by_cases hs : b.stock ≥ q
      · rw [if_pos hs] at h
        cases hr : scanCart books rest with
        | error e =>
          simp only [hr] at h
          exact absurd h (by simp)
        | ok pr =>
          obtain ⟨t2, its2⟩ := pr
          simp only [hr] at h
          injection h with h2
          injection h2 with h3 h4
          subst h3
          subst h4
          rw [List.map_cons, List.sum_cons, ← ih t2 its2 hr]
          show b.price * (q : ℚ) + t2 = (q : ℚ) * b.price + t2
          ring
      · rw [if_neg hs] at h
        exact absurd h (by simp)

/-- Every line recorded by a completed scan carries the unit price of its
book as read from the current catalog. -/
lemma scanCart_ok_prices (books : List Book) (cart : List (Nat × Int))
    (t : ℚ) (its : List CartLineOk)
    (h : scanCart books cart = Except.ok (t, its)) :
    ∀ it ∈ its, ∃ b, findBook books it.book_id = some b ∧ it.price = b.price := by
  induction cart generalizing t its with
  | nil =>
    unfold scanCart at h
    injection h with h2
    injection h2 with h3 h4
    subst h4
    intro it hit
    cases hit
  | cons a rest ih =>
    obtain ⟨bid, q⟩ := a
    unfold scanCart at h
    cases hf : findBook books bid with
    | none =>
      simp only [hf] at h
      exact absurd h (by simp)
    | some b =>
      simp only [hf] at h
      by_cases hs : b.stock ≥ q
      · rw [if_pos hs] at h
        cases hr : scanCart books rest with
        | error e =>
          simp only [hr] at h
          exact absurd h (by simp)
        | ok pr =>
          obtain ⟨t2, its2⟩ := pr
          simp only [hr] at h
          injection h with h2
          injection h2 with h3 h4
          subst h4
          intro it hit
          rcases List.mem_cons.mp hit with h1 | h2
          · subst h1
            exact ⟨b, hf, rfl⟩
          · exact ih t2 its2 hr it h2
      · rw [if_neg hs] at h
        exact absurd h (by simp)

/-- The item/stock loop only appends the converted lines to order_items. -/
lemma commitItems_order_items (oid : String) (its : List CartLineOk) :
    ∀ db : Db, (commitItems db oid its).order_items =
      db.order_items ++ its.map (toOrderItem oid) := by
  induction its with
  | nil => intro db; simp [commitItems]
  | cons it rest ih =>
    intro db
    unfold commitItems
    rw [ih]
    simp [List.append_assoc]

/-- The item/stock loop never touches the orders table. -/
lemma commitItems_orders (oid : String) (its : List CartLineOk) :
    ∀ db : Db, (commitItems db oid its).orders = db.orders := by
  induction its with
  | nil => intro db; simp [commitItems]
  | cons it rest ih =>
    intro db
    unfold commitItems
    rw [ih]

/-- The item/stock loop never touches the notifications table. -/
lemma commitItems_notifications (oid : String) (its : List CartLineOk) :
    ∀ db : Db, (commitItems db oid its).notifications = db.notifications := by
  induction its with
  | nil => intro db; simp [commitItems]
  | cons it rest ih =>
    intro db
    unfold commitItems
    rw [ih]

/-- A checkout whose scan fails returns before any write: database, cart and
the error are handed back unchanged. -/
lemma checkout_error_shape (db : Db) (cart : List (Nat × Int))
    (oid customer : String) (e : CheckoutErr)
    (hsc : scanCart db.books cart = Except.error e) :
    checkout db cart oid customer = ⟨db, cart, Except.error e⟩ := by
  unfold checkout
  rw [hsc]

/-- A checkout whose scan completes commits exactly one orders row, the
converted item rows, one new_order notification, and clears the cart. -/
lemma checkout_ok_shape (db : Db) (cart : List (Nat × Int))
    (oid customer : String) (t : ℚ) (its : List CartLineOk)
    (hsc : scanCart db.books cart = Except.ok (t, its)) :
    (checkout db cart oid customer).db.orders = db.orders ++ [⟨oid, customer, t⟩] ∧
    (checkout db cart oid customer).db.order_items =
      db.order_items ++ its.map (toOrderItem oid) ∧
    (checkout db cart oid customer).db.notifications =
      (commitItems { db with orders := db.orders ++ [⟨oid, customer, t⟩] }
          oid its).notifications ++
        [⟨(commitItems { db with orders := db.orders ++ [⟨oid, customer, t⟩] }
            oid its).notifications.length + 1, "new_order",
          "New Order Received",
          "Order " ++ oid ++ " placed by " ++ customer, false⟩] ∧
    (checkout db cart oid customer).cart = [] ∧
    (checkout db cart oid customer).outcome = Except.ok oid := by
  have hck : checkout db cart oid customer =
      ⟨addNotification
        (commitItems { db with orders := db.orders ++ [⟨oid, customer, t⟩] }
          oid its)
        "new_order" "New Order Received"
        ("Order " ++ oid ++ " placed by " ++ customer), [],
        Except.ok oid⟩ := by
    unfold checkout
    rw [hsc]
  rw [hck]
  refine ⟨?_, ?_, ?_, rfl, rfl⟩
  · show (addNotification _ _ _ _).orders = _
    unfold addNotification
    simp [commitItems_orders]
  · show (addNotification _ _ _ _).order_items = _
    unfold addNotification
    simp [commitItems_order_items]
  · show (addNotification _ _ _ _).notifications = _
    unfold addNotification
    simp

/-- C1 counterexample: a cart line referencing an absent book is a bad line,
yet the checkout aborts with the uncaught TypeError of the failure flash,
not with an insufficient-stock error. -/
theorem checkout_absent_book_not_insufficient :
    isBadLine ([] : List Book) (1, 1) = true ∧
    (checkout ⟨[], [], [], []⟩ [(1, 1)] "ORDER1AB" "cust").outcome =
      Except.error CheckoutErr.noneTypeError ∧
    ¬ ∃ t a, (checkout ⟨[], [], [], []⟩ [(1, 1)] "ORDER1AB" "cust").outcome =
      Except.error (CheckoutErr.insufficientStock t a) := by
  refine ⟨rfl, rfl, ?_⟩
  rintro ⟨t, a, h⟩
  have h0 : (checkout ⟨[], [], [], []⟩ [(1, 1)] "ORDER1AB" "cust").outcome =
      Except.error CheckoutErr.noneTypeError := rfl
  rw [h0] at h
  exact absurd h (by simp)

/-- C1 amended: a checkout whose cart holds a bad line (quantity above
stock, or an absent book) aborts with an error and leaves the database
unchanged; when every line references an existing book the error is the
insufficient-stock one. -/
theorem checkout_bad_cart_aborts (db : Db) (cart : List (Nat × Int))
    (oid customer : String)
    (h : ∃ l ∈ cart, isBadLine db.books l = true) :
    (∃ e, (checkout db cart oid customer).outcome = Except.error e) ∧
    (checkout db cart oid customer).db = db ∧
    ((∀ l ∈ cart, (findBook db.books l.1).isSome = true) →
      ∃ t a, (checkout db cart oid customer).outcome =
        Except.error (CheckoutErr.insufficientStock t a)) := by
  obtain ⟨e, hsc⟩ := scanCart_error_of_bad db.books cart h
  rw [checkout_error_shape db cart oid customer e hsc]
  refine ⟨⟨e, rfl⟩, rfl, fun hall => ?_⟩
  obtain ⟨t, a, he⟩ := scanCart_error_insufficient db.books cart e hall hsc
  exact ⟨t, a, by rw [he]⟩

/-- C1 witness: requesting two copies of the single-copy book 1 leaves the
concrete database untouched. -/
theorem checkout_bad_cart_aborts_witness :
    (checkout dbOneBook [(1, 2)] "ORDER1AB" "cust").db = dbOneBook :=
  (checkout_bad_cart_aborts dbOneBook [(1, 2)] "ORDER1AB" "cust"
    (by decide)).2.1

/-- C3: a successful checkout appends exactly one orders row whose
total_amount equals the sum over the new order_items rows of quantity times
captured price, and each captured price is the price of the book as read
from the catalog at checkout time. -/
theorem checkout_total_eq_sum_items (db : Db) (cart : List (Nat × Int))
    (oid customer o : String)
    (h : (checkout db cart oid customer).outcome = Except.ok o) :
    ∃ ord, (checkout db cart oid customer).db.orders = db.orders ++ [ord] ∧
      ord.total_amount =
        (((checkout db cart oid customer).db.order_items.drop
            db.order_items.length).map
          (fun it => (it.quantity : ℚ) * it.price)).sum ∧
      ∀ it ∈ (checkout db cart oid customer).db.order_items.drop
          db.order_items.length,
        ∃ b, findBook db.books it.book_id = some b ∧ it.price = b.price := by
  cases hsc : scanCart db.books cart with
  | error e =>
    rw [checkout_error_shape db cart oid customer e hsc] at h
    exact absurd h (by simp)
  | ok p =>
    obtain ⟨t, its⟩ := p
    obtain ⟨hord, hitems, -, -, -⟩ :=
      checkout_ok_shape db cart oid customer t its hsc
    refine ⟨⟨oid, customer, t⟩, hord, ?_, ?_⟩
    · rw [hitems, List.drop_left, List.map_map]
      have ht := scanCart_ok_total db.books cart t its hsc
      show Order.total_amount ⟨oid, customer, t⟩ = _
      rw [ht]
      rfl
    · rw [hitems, List.drop_left]
      intro it hit
      obtain ⟨it0, hit0, rfl⟩ := List.mem_map.mp hit
      obtain ⟨b, hb, hp⟩ :=
        scanCart_ok_prices db.books cart t its hsc it0 hit0
      exact ⟨b, hb, hp⟩

/-- C3 witness: the concrete one-line checkout satisfies the total and
captured-price equations. -/
theorem checkout_total_eq_sum_items_witness :
    ∃ ord, (checkout dbOneBook [(1, 1)] "ORDER1AB" "c").db.orders =
        dbOneBook.orders ++ [ord] ∧
      ord.total_amount =
        (((checkout dbOneBook [(1, 1)] "ORDER1AB" "c").db.order_items.drop
            dbOneBook.order_items.length).map
          (fun it => (it.quantity : ℚ) * it.price)).sum ∧
      ∀ it ∈ (checkout dbOneBook [(1, 1)] "ORDER1AB" "c").db.order_items.drop
          dbOneBook.order_items.length,
        ∃ b, findBook dbOneBook.books it.book_id = some b ∧
          it.price = b.price :=
  checkout_total_eq_sum_items dbOneBook [(1, 1)] "ORDER1AB" "c" "ORDER1AB"
    (by decide)

/-- C10: a checkout that ends in any error hands the session cart back
unchanged; the cart is cleared exactly on the successful path, which also
commits the new orders row. -/
theorem checkout_cart_preserved_on_error (db : Db) (cart : List (Nat × Int))
    (oid customer : String) :
    (∀ e, (checkout db cart oid customer).outcome = Except.error e →
      (checkout db cart oid customer).cart = cart ∧
      (checkout db cart oid customer).db = db) ∧
    (∀ o, (checkout db cart oid customer).outcome = Except.ok o →
      (checkout db cart oid customer).cart = [] ∧
      (checkout db cart oid customer).db.orders.length =
        db.orders.length + 1) := by
  cases hsc : scanCart db.books cart with
  | error e =>
    rw [checkout_error_shape db cart oid customer e hsc]
    exact ⟨fun _ _ => ⟨rfl, rfl⟩, fun o ho => absurd ho (by simp)⟩
  | ok p =>
    obtain ⟨t, its⟩ := p
    obtain ⟨hord, -, -, hcart, hout⟩ :=
      checkout_ok_shape db cart oid customer t its hsc
    refine ⟨fun e he => ?_, fun o ho => ⟨hcart, ?_⟩⟩
    · rw [hout] at he
      exact absurd he (by simp)
    · rw [hord]
      simp

/-- C10 witness: the failing concrete checkout keeps the one-line cart. -/
theorem checkout_cart_preserved_on_error_witness :
    (checkout dbOneBook [(1, 2)] "ORDER1AB" "c").cart = [(1, 2)] :=
  ((checkout_cart_preserved_on_error dbOneBook [(1, 2)] "ORDER1AB" "c").1
    (CheckoutErr.insufficientStock "B" 1) (by decide)).1

/-- C5 counterexample: a sale of two copies succeeds and moves the stock of
book 1 from 6 to 4, across its threshold 5, yet the request emits no
low_stock notification at all. -/
theorem checkout_crossing_no_low_stock :
    (checkout dbCross [(1, 2)] "ORDER1AB" "cust").outcome =
      Except.ok "ORDER1AB" ∧
    Option.map Book.stock
      (findBook (checkout dbCross [(1, 2)] "ORDER1AB" "cust").db.books 1) =
      some 4 ∧
    lowStockCount (checkout dbCross [(1, 2)] "ORDER1AB" "cust").db = 0 := by
  decide

/-- C5 amended: checkout never emits a low_stock notification; the admin
edit-book handler emits exactly one when the submitted stock is at or below
the submitted threshold while the stored stock was strictly above it, and
none otherwise (in particular none when the stored stock is already at or
below the threshold). -/
theorem low_stock_only_on_edit (db : Db) (cart : List (Nat × Int))
    (oid customer : String) (bid : Nat) (title author description : String)
    (price : ℚ) (stock : Int) (genre : String) (th : Int) :
    lowStockCount (checkout db cart oid customer).db = lowStockCount db ∧
    lowStockCount (edit_book db bid title author description price stock
        genre th) =
      lowStockCount db +
        (match findBook db.books bid with
         | some b => if stock ≤ th ∧ b.stock > th then 1 else 0
         | none => 0) := by
  constructor
  · cases hsc : scanCart db.books cart with
    | error e => rw [checkout_error_shape db cart oid customer e hsc]
    | ok p =>
      obtain ⟨t, its⟩ := p
      obtain ⟨-, -, hnotif, -, -⟩ :=
        checkout_ok_shape db cart oid customer t its hsc
      unfold lowStockCount
      rw [hnotif, List.filter_append, commitItems_notifications]
      simp
  · cases hf : findBook db.books bid with
    | none => simp [edit_book, hf]
    | some b =>
      unfold edit_book
      rw [hf]
      simp only [hf]
      by_cases hcross : stock ≤ th ∧ b.stock > th
      · rw [if_pos hcross, if_pos hcross]
        unfold lowStockCount addNotification
        simp [List.filter_append]
      · rw [if_neg hcross, if_neg hcross]
        simp [lowStockCount]

/-- C2: with one copy in stock and two checkouts each requesting one copy,
the interleaving that runs both stock checks before either update lets both
requests commit and drives the stock to -1; the decrement the code issues
is unconditional, where the required conditional update would have refused
the second decrement. -/
theorem oversell_race_eval :
    (runRace ⟨1, ⟨TPC.start, 1⟩, ⟨TPC.start, 1⟩⟩
        [true, false, true, false]).stock = -1 ∧
    (runRace ⟨1, ⟨TPC.start, 1⟩, ⟨TPC.start, 1⟩⟩
        [true, false, true, false]).t1.pc = TPC.committed ∧
    (runRace ⟨1, ⟨TPC.start, 1⟩, ⟨TPC.start, 1⟩⟩
        [true, false, true, false]).t2.pc = TPC.committed ∧
    decrementStockSrc 0 1 = -1 ∧
    decrementStockContract 0 1 = none := by
  decide

/-- C6 counterexample: the per-character space of the generated order id
has sixteen characters, not the at least thirty-six the claim asks for. -/
theorem order_id_alphabet_small :
    orderIdAlphabet.card = 16 ∧ ¬ 36 ≤ orderIdAlphabet.card := by
  decide

/-- C6 amended: every generated order id is exactly eight characters drawn
from the sixteen-character uppercase-hex alphabet, so the identifier space
has size 16 to the eighth power. -/
theorem order_id_hex_shape :
    orderIdAlphabet.card = 16 ∧
    ∀ u : Fin 8 → Fin 16, (genOrderId u).length = 8 ∧
      ∀ c ∈ genOrderId u, c ∈ orderIdAlphabet := by
  refine ⟨by decide, fun u => ⟨by simp [genOrderId], ?_⟩⟩
  intro c hc
  unfold genOrderId at hc
  obtain ⟨i, hi, rfl⟩ := List.mem_map.mp hc
  exact Finset.mem_image.mpr ⟨i, Finset.mem_univ i, rfl⟩

/-- C6 witness: the all-zero nibble draw generates an id whose characters
sit in the sixteen-character alphabet. -/
theorem order_id_hex_shape_witness : '0' ∈ orderIdAlphabet :=
  (order_id_hex_shape.2 (fun _ => 0)).2 '0' (by decide)

/-- C4 counterexample: on the legacy add-book route the sentinel price
string nan is not rejected with a validation error before numeric parsing;
float parses it, and the request dies afterwards at the INSERT with the
uncaught IntegrityError of the NOT NULL price column, so no row is
inserted but no validation error is ever reported. -/
theorem legacy_add_book_nan_not_validation :
    admin_add_book [] "t" "a" "d" "nan" "3" "g" =
      (AddBookOutcome.integrityError, []) ∧
    ∀ msg, (admin_add_book [] "t" "a" "d" "nan" "3" "g").1 ≠
      AddBookOutcome.validationError msg := by
  refine ⟨by decide, fun msg h => ?_⟩
  have h0 : (admin_add_book [] "t" "a" "d" "nan" "3" "g").1 =
      AddBookOutcome.integrityError := by decide
  rw [h0] at h
  exact absurd h (by simp)

/-- C4 amended: the enhanced admin add-book route rejects every request
whose stripped, lowercased price field is one of the sentinel words with
the inline validation error, before any numeric parsing, and inserts no
row; the legacy route lets such a price through float, and when it parses
to nan (with a well-formed stock field) the INSERT raises the uncaught
IntegrityError of the REAL NOT NULL price column, so no row is inserted
there either, but the failure is a post-parse database error, not a
validation error. -/
theorem add_book_sentinel_rejected (table : List BookRow)
    (tableL : List BookRowL)
    (title author description stock_str genre threshold_str : String)
    (price_str : String) (st : Int) :
    (pyLower (pyStrip price_str) ∈ sentinels →
      add_book table title author description price_str stock_str genre
          threshold_str =
        (AddBookOutcome.validationError "Invalid price value provided.",
          table)) ∧
    (pyFloatOfString price_str = some PyFloat.nan →
      pyIntOfString stock_str = some st →
      admin_add_book tableL title author description price_str stock_str
          genre =
        (AddBookOutcome.integrityError, tableL)) := by
  constructor
  · intro h
    unfold add_book
    rw [if_pos h]
  · intro hnan hstock
    unfold admin_add_book
    rw [hnan, hstock]
    simp

/-- C4 witness: the request with price nan is rejected with the validation
error by the enhanced route, dies with the IntegrityError on the legacy
route, and both tables stay empty. -/
theorem add_book_sentinel_rejected_witness :
    add_book [] "t" "a" "d" "nan" "3" "g" "5" =
      (AddBookOutcome.validationError "Invalid price value provided.",
        []) ∧
    admin_add_book [] "t" "a" "d" "nan" "3" "g" =
      (AddBookOutcome.integrityError, []) :=
  ⟨(add_book_sentinel_rejected [] [] "t" "a" "d" "3" "g" "5" "nan" 3).1
      (by decide),
   (add_book_sentinel_rejected [] [] "t" "a" "d" "3" "g" "5" "nan" 3).2
      (by decide) (by decide)⟩

/-- C8: materializing a cart that holds a line whose book now has zero
stock does not drop the line and render the rest; the handler deletes the
dict key mid-iteration and the request dies with the RuntimeError. -/
theorem view_cart_zero_stock_runtime_error :
    viewCart [⟨1, "X", "a", "d", 10, 0, "g", 5⟩] [(1, 2)] =
      Except.error ViewErr.dictChangedSize := by
  decide
